import Mathlib

/-!
Shallow embedding of `app/main.py` (FastAPI + psycopg e-commerce backend),
covering the data model and the operations referenced by the spec:
registration, login, the admin check, order placement and the product
statistics report.

Modelling conventions:
* Database tables are Lean lists of rows; serial primary keys are explicit
  `next_*` counters on the store.
* The connection returned by `get_conn` is opened with `autocommit=True`
  (main.py line 37), so every `cur.execute` commits on its own.  Fallible
  database statements are modelled by a failure oracle `fail : Nat → Bool`
  telling whether the k-th mutating statement of a handler raises; when a
  statement raises, the effects of the statements already executed persist
  (autocommit), and the exception escapes the handler (HTTP 500).
* Python `dict.get` over the untyped request body is modelled with `Option`:
  `none` is an absent key.  SQL `NULL` in a row is likewise `Option.none`.
* `bcrypt` hashing/checking and JWT issuance are external primitives and are
  passed in as opaque function arguments; a successful login is represented
  by the subject (email) that the issued token would carry.
* Prices are exact numerals (`Int`), matching the DB `decimal` column; the
  `::FLOAT` casts in main.py only change the wire representation.
-/

namespace ClothingStore

/-- Row of the `customers` table (`customer_id, first_name, last_name, email,
password, role`); `password` and `role` are nullable columns. -/
structure Customer where
  customer_id : Nat
  first_name : String
  last_name : String
  email : String
  password : Option String
  role : Option String
deriving DecidableEq, Repr

/-- Row of the `products` table; `price` is the exact decimal value. -/
structure Product where
  product_id : Nat
  name : String
  category_id : Nat
  price : Int
  stock : Int
deriving DecidableEq, Repr

/-- Row of the `orders` table. -/
structure OrderRow where
  order_id : Nat
  customer_id : Nat
deriving DecidableEq, Repr

/-- Row of the `order_items` table. -/
structure OrderItem where
  order_id : Nat
  product_id : Nat
  quantity : Int
deriving DecidableEq, Repr

/-- The database state: the four tables used by the handlers under
verification, plus the serial-key counters. -/
structure Store where
  customers : List Customer
  products : List Product
  orders : List OrderRow
  order_items : List OrderItem
  next_customer_id : Nat
  next_order_id : Nat
deriving DecidableEq, Repr

/-- The JSON body of `POST /orders` is an untyped `dict` (main.py line 124);
the handler reads `product_id` and `quantity` with `dict.get` and never reads
any identity field, which we record by carrying a (possibly present, always
ignored) `customer_id` key. -/
structure OrderBody where
  product_id : Option Nat
  quantity : Option Int
  customer_id : Option Nat
deriving DecidableEq, Repr

/-- The receipt returned by a successful `place_order`. -/
structure Receipt where
  order_id : Nat
  product_name : String
  total_price : Int
  message : String
deriving DecidableEq, Repr

/-- Outcome of the `place_order` handler: a 201 receipt, a raised
`HTTPException`, an uncaught Python `TypeError` (comparing `int < None`,
surfaced by the framework as a 500), or an uncaught database error
(also a 500). -/
inductive OrderResult where
  | ok (r : Receipt)
  | httpError (status : Nat) (detail : String)
  | typeError
  | dbError
deriving DecidableEq, Repr

/-- Shallow embedding of `place_order` (main.py lines 123-151) with a failure
oracle for its three mutating statements: `fail 0` is the `INSERT INTO
orders`, `fail 1` the `INSERT INTO order_items`, `fail 2` the `UPDATE
products` raising a database error.  Because `get_conn` opens the connection
with `autocommit=True` (line 37), each completed statement is already
committed when a later one raises, so the pre-failure state persists. -/
def placeOrderFaulty (st : Store) (user : Customer) (body : OrderBody)
    (fail : Nat → Bool) : OrderResult × Store :=
  match body.product_id with
  | none =>
      -- SELECT ... WHERE product_id = NULL matches no row, then `not product`
      (.httpError 400 "Invalid product or insufficient stock", st)
  | some pid =>
    match st.products.find? (fun p => p.product_id == pid) with
    | none => (.httpError 400 "Invalid product or insufficient stock", st)
    | some p =>
      match body.quantity with
      | none =>
          -- `product["stock"] < None` raises TypeError before any mutation
          (.typeError, st)
      | some q =>
        if p.stock < q then
          (.httpError 400 "Invalid product or insufficient stock", st)
        else if fail 0 then (.dbError, st)
        else
          let oid := st.next_order_id
          let st1 := { st with
            orders := st.orders ++ [⟨oid, user.customer_id⟩]
            next_order_id := oid + 1 }
          if fail 1 then (.dbError, st1)
          else
            let st2 := { st1 with
              order_items := st1.order_items ++ [⟨oid, pid, q⟩] }
            if fail 2 then (.dbError, st2)
            else
              let st3 := { st2 with
                products := st2.products.map (fun pr =>
                  if pr.product_id == pid then { pr with stock := pr.stock - q }
                  else pr) }
              (.ok ⟨oid, p.name, p.price * q, "Order placed successfully"⟩, st3)

/-- The handler on the error-free path (no database statement raises). -/
def place_order (st : Store) (user : Customer) (body : OrderBody) :
    OrderResult × Store :=
  placeOrderFaulty st user body (fun _ => false)

/-- Logged-in customer used in the concrete scenarios below. -/
def demoUser : Customer :=
  ⟨7, "Test", "User", "user@example.com", some "hash7", some "customer"⟩

/-- Concrete store: one product with stock 5, no orders yet. -/
def demoStore : Store :=
  { customers := [demoUser]
    products := [⟨1, "Shirt", 1, 10, 5⟩]
    orders := []
    order_items := []
    next_customer_id := 8
    next_order_id := 1 }

/-- Claim C1: the five data steps of `place_order` are claimed to form one
atomic unit, failure leaving no partial state.  The code contradicts its own
comment (line 139, "Atomic order creation"): the connection is opened with
`autocommit=True`, so when the `INSERT INTO order_items` raises, the already
committed order row survives without any order item and without the stock
decrement — a partial state is observable. -/
theorem place_order_not_atomic :
    (placeOrderFaulty demoStore demoUser ⟨some 1, some 2, none⟩ (fun n => n == 1)).1
        = OrderResult.dbError ∧
    (placeOrderFaulty demoStore demoUser ⟨some 1, some 2, none⟩ (fun n => n == 1)).2.orders
        = [⟨1, 7⟩] ∧
    (placeOrderFaulty demoStore demoUser ⟨some 1, some 2, none⟩ (fun n => n == 1)).2.order_items
        = [] ∧
    (placeOrderFaulty demoStore demoUser ⟨some 1, some 2, none⟩ (fun n => n == 1)).2.products
        = demoStore.products := by
  decide

/-- Claim C2 fails on the code: `place_order` never validates its body.  With
an existing product (stock 5) and `quantity = 0` — not a positive integer —
the handler succeeds, creates an order row, and returns a receipt instead of
failing with a `ValidationError` and leaving the state unchanged. -/
theorem place_order_no_validation_counterexample :
    (place_order demoStore demoUser ⟨some 1, some 0, none⟩).1
        = OrderResult.ok ⟨1, "Shirt", 0, "Order placed successfully"⟩ ∧
    (place_order demoStore demoUser ⟨some 1, some 0, none⟩).2.orders
        = [⟨1, 7⟩] ∧
    (place_order demoStore demoUser ⟨some 1, some 0, none⟩).2.order_items
        = [⟨1, 1, 0⟩] := by
  decide

/-- Claim C2 amended: `place_order` performs no validation at all.  A missing
or unknown `product_id` fails with the generic 400 stock error (not a
`ValidationError`) with no state change; a missing `quantity` with an
existing product raises an uncaught `TypeError` (500) with no state change;
and any integer `quantity` with `stock` not below it — including zero and
negative values — succeeds and creates the order. -/
theorem place_order_no_validation_spec (st : Store) (user : Customer)
    (body : OrderBody) :
    (body.product_id = none →
      place_order st user body
        = (.httpError 400 "Invalid product or insufficient stock", st)) ∧
    (∀ pid, body.product_id = some pid →
      st.products.find? (fun p => p.product_id == pid) = none →
      place_order st user body
        = (.httpError 400 "Invalid product or insufficient stock", st)) ∧
    (∀ pid p, body.product_id = some pid →
      st.products.find? (fun pr => pr.product_id == pid) = some p →
      body.quantity = none →
      place_order st user body = (.typeError, st)) ∧
    (∀ pid p q, body.product_id = some pid →
      st.products.find? (fun pr => pr.product_id == pid) = some p →
      body.quantity = some q → ¬ p.stock < q →
      place_order st user body
        = (.ok ⟨st.next_order_id, p.name, p.price * q, "Order placed successfully"⟩,
           { st with
             orders := st.orders ++ [⟨st.next_order_id, user.customer_id⟩]
             order_items := st.order_items ++ [⟨st.next_order_id, pid, q⟩]
             products := st.products.map (fun pr =>
               if pr.product_id == pid then { pr with stock := pr.stock - q }
               else pr)
             next_order_id := st.next_order_id + 1 })) := by
  refine ⟨?_, ?_, ?_, ?_⟩
  · intro h
    simp [place_order, placeOrderFaulty, h]
  · intro pid h hf
    simp [place_order, placeOrderFaulty, h, hf]
  · intro pid p h hf hq
    simp [place_order, placeOrderFaulty, h, hf, hq]
  · intro pid p q h hf hq hlt
    simp [place_order, placeOrderFaulty, h, hf, hq, hlt]

/-- Witness for the amended C2 theorem at a concrete input: quantity `-3`
passes the stock check (5 is not below `-3`) and the stock is incremented. -/
theorem place_order_no_validation_spec_witness :
    place_order demoStore demoUser ⟨some 1, some (-3), none⟩
      = (.ok ⟨1, "Shirt", -30, "Order placed successfully"⟩,
         { demoStore with
           orders := [⟨1, 7⟩]
           order_items := [⟨1, 1, -3⟩]
           products := [⟨1, "Shirt", 1, 10, 8⟩]
           next_order_id := 2 }) := by
  have h := (place_order_no_validation_spec demoStore demoUser
    ⟨some 1, some (-3), none⟩).2.2.2 1 ⟨1, "Shirt", 1, 10, 5⟩ (-3)
    rfl (by decide) rfl (by decide)
  rw [h]
  decide

/-- Claim C3: if the referenced product does not exist (or no `product_id`
was supplied, so the `SELECT ... = NULL` finds nothing), or its stock is
strictly below the requested quantity, `place_order` fails with the single
generic 400 "Invalid product or insufficient stock" error and returns the
store unchanged, so stock and the order and order-item tables are
untouched. -/
theorem place_order_insufficient_stock_frame (st : Store) (user : Customer)
    (body : OrderBody) :
    ((body.product_id = none ∨ ∃ pid, body.product_id = some pid ∧
        st.products.find? (fun p => p.product_id == pid) = none) →
      place_order st user body
        = (.httpError 400 "Invalid product or insufficient stock", st)) ∧
    (∀ pid p q, body.product_id = some pid →
      st.products.find? (fun pr => pr.product_id == pid) = some p →
      body.quantity = some q → p.stock < q →
      place_order st user body
        = (.httpError 400 "Invalid product or insufficient stock", st)) := by
  constructor
  · rintro (h | ⟨pid, h, hf⟩)
    · simp [place_order, placeOrderFaulty, h]
    · simp [place_order, placeOrderFaulty, h, hf]
  · intro pid p q h hf hq hlt
    simp [place_order, placeOrderFaulty, h, hf, hq, hlt]

/-- Witness for C3 at a concrete input: ordering 99 units of the product
with stock 5 fails with the generic error and leaves the store unchanged. -/
theorem place_order_insufficient_stock_frame_witness :
    place_order demoStore demoUser ⟨some 1, some 99, none⟩
      = (.httpError 400 "Invalid product or insufficient stock", demoStore) :=
  (place_order_insufficient_stock_frame demoStore demoUser
    ⟨some 1, some 99, none⟩).2 1 ⟨1, "Shirt", 1, 10, 5⟩ 99
    rfl (by decide) rfl (by decide)

/-- Every order row after any `place_order` execution (any fault pattern) is
either pre-existing or owned by the authenticated customer. -/
theorem placeOrderFaulty_orders_sub (st : Store) (user : Customer)
    (body : OrderBody) (fail : Nat → Bool) :
    ∀ o ∈ (placeOrderFaulty st user body fail).2.orders,
      o ∈ st.orders ∨ o.customer_id = user.customer_id := by
  intro o ho
  unfold placeOrderFaulty at ho
  split at ho
  · exact Or.inl ho
  · split at ho
    · exact Or.inl ho
    · split at ho
      · exact Or.inl ho
      · split at ho
        · exact Or.inl ho
        · split at ho
          · exact Or.inl ho
          · split at ho
            · rcases List.mem_append.mp ho with hmem | hmem
              · exact Or.inl hmem
              · exact Or.inr (by rw [List.mem_singleton.mp hmem])
            · split at ho
              · rcases List.mem_append.mp ho with hmem | hmem
                · exact Or.inl hmem
                · exact Or.inr (by rw [List.mem_singleton.mp hmem])
              · rcases List.mem_append.mp ho with hmem | hmem
                · exact Or.inl hmem
                · exact Or.inr (by rw [List.mem_singleton.mp hmem])

/-- Claim C9: the owner of any order created by `place_order` is the customer
resolved from the bearer token (`current_user["customer_id"]`, main.py line
130); a `customer_id` key in the request body is never read, so two bodies
differing only in that key produce identical results. -/
theorem place_order_owner_from_token (st : Store) (user : Customer)
    (pp : Option Nat) (q : Option Int) (cid1 cid2 : Option Nat) :
    place_order st user ⟨pp, q, cid1⟩ = place_order st user ⟨pp, q, cid2⟩ ∧
    ∀ o ∈ (place_order st user ⟨pp, q, cid1⟩).2.orders,
      o ∈ st.orders ∨ o.customer_id = user.customer_id :=
  ⟨rfl, placeOrderFaulty_orders_sub st user ⟨pp, q, cid1⟩ (fun _ => false)⟩

/-- Witness for C9 at a concrete input: a body claiming `customer_id = 999`
is ignored, and the created order ⟨1, 7⟩ belongs to the token's customer. -/
theorem place_order_owner_from_token_witness :
    place_order demoStore demoUser ⟨some 1, some 2, some 999⟩
        = place_order demoStore demoUser ⟨some 1, some 2, some 0⟩ ∧
    ((⟨1, 7⟩ : OrderRow) ∈ demoStore.orders ∨
      (⟨1, 7⟩ : OrderRow).customer_id = demoUser.customer_id) :=
  ⟨(place_order_owner_from_token demoStore demoUser
      (some 1) (some 2) (some 999) (some 0)).1,
   (place_order_owner_from_token demoStore demoUser
      (some 1) (some 2) (some 999) (some 0)).2 ⟨1, 7⟩ (by decide)⟩

/-- Embedding of `verify_password` (main.py lines 42-44): a falsy stored hash
(SQL `NULL`, here `none`, or the empty string) short-circuits to `False`
before `bcrypt.checkpw` runs; otherwise the external primitive `checkpw`
decides. -/
def verify_password (checkpw : String → String → Bool) (plain : String)
    (hashed : Option String) : Bool :=
  match hashed with
  | none => false
  | some h => if h = "" then false else checkpw plain h

/-- Outcome of the `login` handler: the subject (email) embedded in the
issued token, or a raised `HTTPException`. -/
inductive LoginResult where
  | ok (subject : String)
  | authError (status : Nat) (detail : String)
deriving DecidableEq, Repr

/-- Embedding of `login` (main.py lines 96-105): fetch the first customer row
matching the submitted username, and fail with one fixed 401 error when no
row exists or the password does not verify. -/
def login (st : Store) (checkpw : String → String → Bool)
    (username password : String) : LoginResult :=
  match st.customers.find? (fun c => c.email == username) with
  | none => .authError 401 "Incorrect email or password"
  | some u =>
    if verify_password checkpw password u.password then .ok u.email
    else .authError 401 "Incorrect email or password"

/-- Claim C5: a wrong password for an existing email and a nonexistent email
produce the very same 401 error with the same message, so the two failure
causes are externally indistinguishable. -/
theorem login_indistinguishable (st : Store)
    (checkpw : String → String → Bool) (e1 p1 e2 p2 : String) (u : Customer)
    (h1 : st.customers.find? (fun c => c.email == e1) = some u)
    (h2 : verify_password checkpw p1 u.password = false)
    (h3 : st.customers.find? (fun c => c.email == e2) = none) :
    login st checkpw e1 p1 = .authError 401 "Incorrect email or password" ∧
    login st checkpw e2 p2 = .authError 401 "Incorrect email or password" ∧
    login st checkpw e1 p1 = login st checkpw e2 p2 := by
  have ha : login st checkpw e1 p1
      = .authError 401 "Incorrect email or password" := by
    simp [login, h1, h2]
  have hb : login st checkpw e2 p2
      = .authError 401 "Incorrect email or password" := by
    simp [login, h3]
  exact ⟨ha, hb, ha.trans hb.symm⟩

/-- Witness for C5: in the demo store, a wrong password for the stored
customer and a login with an unknown email both yield the identical 401. -/
theorem login_indistinguishable_witness :
    login demoStore (fun _ _ => false) "user@example.com" "wrong"
        = .authError 401 "Incorrect email or password" ∧
    login demoStore (fun _ _ => false) "ghost@example.com" "whatever"
        = .authError 401 "Incorrect email or password" ∧
    login demoStore (fun _ _ => false) "user@example.com" "wrong"
        = login demoStore (fun _ _ => false) "ghost@example.com" "whatever" :=
  login_indistinguishable demoStore (fun _ _ => false)
    "user@example.com" "wrong" "ghost@example.com" "whatever" demoUser
    (by decide) (by decide) (by decide)

/-- Claim C10: against a customer row whose stored hash is SQL `NULL` or the
empty string, `verify_password` returns `false` without consulting the
bcrypt primitive (so no exception can arise from `hashed.encode`), and the
login fails with the same generic 401 as every other failed login. -/
theorem login_null_hash_safe (st : Store)
    (checkpw : String → String → Bool) (email pw : String) (u : Customer)
    (h1 : st.customers.find? (fun c => c.email == email) = some u)
    (h2 : u.password = none ∨ u.password = some "") :
    verify_password checkpw pw u.password = false ∧
    login st checkpw email pw = .authError 401 "Incorrect email or password" := by
  have hv : verify_password checkpw pw u.password = false := by
    rcases h2 with h | h <;> simp [verify_password, h]
  exact ⟨hv, by simp [login, h1, hv]⟩

/-- Store holding one customer whose password column is `NULL`. -/
def nullHashStore : Store :=
  { demoStore with
    customers := [⟨9, "No", "Hash", "nohash@example.com", none, none⟩] }

/-- Witness for C10 at the `NULL`-hash customer; the checkpw oracle is the
constantly-true function, showing it is never consulted. -/
theorem login_null_hash_safe_witness :
    verify_password (fun _ _ => true) "anything" none = false ∧
    login nullHashStore (fun _ _ => true) "nohash@example.com" "anything"
        = .authError 401 "Incorrect email or password" :=
  login_null_hash_safe nullHashStore (fun _ _ => true)
    "nohash@example.com" "anything"
    ⟨9, "No", "Hash", "nohash@example.com", none, none⟩
    (by decide) (Or.inl rfl)

/-- Python `user.get("role", "customer")` on the row dict fetched by
`get_current_user`: the outer `Option` is key presence (the `SELECT` always
lists `role`, but an absent key is modelled for completeness), the inner one
is SQL `NULL`.  `dict.get` substitutes the default only for an absent key —
a present `None` value is returned as is. -/
def pyDictGetRole (roleField : Option (Option String)) : Option String :=
  match roleField with
  | none => some "customer"
  | some v => v

/-- Embedding of `check_admin` (main.py lines 67-71): raise 403 unless the
role read from the user dict equals `"admin"`. -/
def check_admin (roleField : Option (Option String)) :
    Except (Nat × String) Unit :=
  if pyDictGetRole roleField = some "admin" then .ok ()
  else .error (403, "Admin permissions required")

/-- Claim C6: `check_admin` succeeds exactly on role `"admin"`, and every
other input — including a `NULL` role and an absent role key — fails with
the one 403 `ForbiddenError` and never any other error. -/
theorem check_admin_spec (rf : Option (Option String)) :
    (check_admin rf = Except.ok () ↔ rf = some (some "admin")) ∧
    (check_admin rf = Except.ok () ∨
      check_admin rf = Except.error (403, "Admin permissions required")) ∧
    check_admin none = Except.error (403, "Admin permissions required") ∧
    check_admin (some none)
      = Except.error (403, "Admin permissions required") := by
  refine ⟨?_, ?_, rfl, rfl⟩
  · constructor
    · intro h
      rcases rf with _ | v
      · simp [check_admin, pyDictGetRole] at h
      · rcases v with _ | s
        · simp [check_admin, pyDictGetRole] at h
        · by_cases hs : s = "admin"
          · rw [hs]
          · simp [check_admin, pyDictGetRole, hs] at h
    · intro h
      rw [h]
      rfl
  · by_cases h : pyDictGetRole rf = some "admin"
    · exact Or.inl (by simp [check_admin, h])
    · exact Or.inr (by simp [check_admin, h])

/-- Witness for C6 at the `NULL`-role input. -/
theorem check_admin_spec_witness :
    (check_admin (some none) = Except.ok ()
        ↔ (some none : Option (Option String)) = some (some "admin")) ∧
    (check_admin (some none) = Except.ok () ∨
      check_admin (some none)
        = Except.error (403, "Admin permissions required")) ∧
    check_admin none = Except.error (403, "Admin permissions required") ∧
    check_admin (some none)
      = Except.error (403, "Admin permissions required") :=
  check_admin_spec (some none)

/-- The JSON body of `POST /users` before pydantic validation: each of the
four `UserRegister` fields may be absent. -/
structure RegisterBody where
  first_name : Option String
  last_name : Option String
  email : Option String
  password : Option String
deriving DecidableEq, Repr

/-- Outcome of `POST /users`: a 201 with the new id, a pydantic 422 for a
missing field (the handler body never runs), or the handler's own 400. -/
inductive RegisterResult where
  | ok (id : Nat)
  | validationError
  | httpError (status : Nat) (detail : String)
deriving DecidableEq, Repr

/-- Embedding of the `POST /users` endpoint (main.py lines 25-29 and 75-94).
Pydantic's `UserRegister` model only requires the four fields to be present
strings — the empty string passes.  The handler hashes the password and
inserts the row with role `'customer'`; the email uniqueness violation comes
from the customers table's unique constraint (schema outside this
repository, per the spec), and any insert failure is caught and mapped to
one generic 400. -/
def register_user (st : Store) (hash : String → String)
    (body : RegisterBody) : RegisterResult × Store :=
  match body.first_name, body.last_name, body.email, body.password with
  | some fn, some ln, some em, some pw =>
    if st.customers.any (fun c => c.email == em) then
      (.httpError 400 "Registration failed (Email likely exists or DB error)", st)
    else
      let cid := st.next_customer_id
      (.ok cid,
        { st with
          customers := st.customers
            ++ [⟨cid, fn, ln, em, some (hash pw), some "customer"⟩]
          next_customer_id := cid + 1 })
  | _, _, _, _ => (.validationError, st)

/-- Claim C8 fails on the code: all four fields set to the empty string pass
pydantic (`str` has no minimum length), the handler runs, and a customer row
with empty fields is created — no `ValidationError` occurs. -/
theorem register_user_empty_fields_counterexample :
    (register_user demoStore (fun s => s) ⟨some "", some "", some "", some ""⟩).1
        = RegisterResult.ok 8 ∧
    (register_user demoStore (fun s => s) ⟨some "", some "", some "", some ""⟩).2.customers
        = demoStore.customers ++ [⟨8, "", "", "", some "", some "customer"⟩] := by
  decide

/-- Claim C8 amended: registration is rejected with a validation error, with
no row created, exactly when one of the four fields is absent from the body;
empty strings are accepted, and with a fresh email the handler creates the
customer row (with the hashed password and role customer). -/
theorem register_user_validation_spec (st : Store) (hash : String → String)
    (body : RegisterBody) :
    ((body.first_name = none ∨ body.last_name = none ∨
        body.email = none ∨ body.password = none) →
      register_user st hash body = (.validationError, st)) ∧
    (∀ fn ln em pw, body.first_name = some fn → body.last_name = some ln →
      body.email = some em → body.password = some pw →
      st.customers.any (fun c => c.email == em) = false →
      register_user st hash body
        = (.ok st.next_customer_id,
           { st with
             customers := st.customers
               ++ [⟨st.next_customer_id, fn, ln, em,
                    some (hash pw), some "customer"⟩]
             next_customer_id := st.next_customer_id + 1 })) := by
  constructor
  · intro h
    rcases body with ⟨f, l, e, p⟩
    rcases f with _ | f
    · rfl
    rcases l with _ | l
    · rfl
    rcases e with _ | e
    · rfl
    rcases p with _ | p
    · rfl
    simp at h
  · intro fn ln em pw hf hl he hp hany
    simp [register_user, hf, hl, he, hp, hany]

/-- Witness for the amended C8 theorem: a missing password field yields the
validation error and leaves the store unchanged. -/
theorem register_user_validation_spec_witness :
    register_user demoStore (fun s => s)
        ⟨some "A", some "B", some "a@b.c", none⟩
      = (.validationError, demoStore) :=
  (register_user_validation_spec demoStore (fun s => s)
    ⟨some "A", some "B", some "a@b.c", none⟩).1
    (Or.inr (Or.inr (Or.inr rfl)))

/-- Embedding of `delete_user` (main.py lines 192-196): an unconditional SQL
delete by id; the endpoint reports success whether or not a row matched. -/
def delete_user (st : Store) (i : Nat) : Store :=
  { st with customers := st.customers.filter (fun c => ¬ c.customer_id == i) }

/-- A state-mutating request handled by the app, for reasoning about
sequential executions.  `loginOp` is included for completeness: the login
handler only reads.  The read-only endpoints (`GET /products`, `GET
/orders`, the statistics reports) issue no writes and are omitted. -/
inductive Op where
  | placeOrder (user : Customer) (body : OrderBody) (fail : Nat → Bool)
  | registerUser (hash : String → String) (body : RegisterBody)
  | deleteUser (i : Nat)
  | loginOp (checkpw : String → String → Bool) (username password : String)

/-- Effect of one request on the database state. -/
def applyOp (st : Store) : Op → Store
  | .placeOrder user body fail => (placeOrderFaulty st user body fail).2
  | .registerUser hash body => (register_user st hash body).2
  | .deleteUser i => delete_user st i
  | .loginOp _ _ _ => st

/-- Sequential (non-interleaved) execution of a list of requests. -/
def runOps (st : Store) : List Op → Store
  | [] => st
  | op :: ops => runOps (applyOp st op) ops

/-- `place_order` (under any fault pattern) never changes the list of
product ids: the stock update rewrites rows in place. -/
theorem placeOrderFaulty_product_ids (st : Store) (user : Customer)
    (body : OrderBody) (fail : Nat → Bool) :
    (placeOrderFaulty st user body fail).2.products.map (fun p => p.product_id)
      = st.products.map (fun p => p.product_id) := by
  unfold placeOrderFaulty
  split
  · rfl
  · split
    · rfl
    · split
      · rfl
      · split
        · rfl
        · split
          · rfl
          · split
            · rfl
            · split
              · rfl
              · rw [List.map_map]
                refine List.map_congr_left ?_
                intro pr _
                simp only [Function.comp_apply]
                split <;> rfl

/-- `register_user` never touches the products table. -/
theorem register_user_products (st : Store) (hash : String → String)
    (body : RegisterBody) :
    (register_user st hash body).2.products = st.products := by
  unfold register_user
  split
  · split <;> rfl
  · rfl

/-- One `place_order` execution keeps every stock non-negative, provided the
`product_id` column is a key (no two product rows share an id) and all
stocks were non-negative: the update is guarded by the stock check on the
same row. -/
theorem placeOrderFaulty_stock_nonneg (st : Store) (user : Customer)
    (body : OrderBody) (fail : Nat → Bool)
    (hids : (st.products.map (fun p => p.product_id)).Nodup)
    (hpos : ∀ p ∈ st.products, 0 ≤ p.stock) :
    ∀ p ∈ (placeOrderFaulty st user body fail).2.products, 0 ≤ p.stock := by
  rcases body with ⟨pp, q, cid⟩
  cases pp with
  | none => exact hpos
  | some pid =>
    cases hfind : st.products.find? (fun p => p.product_id == pid) with
    | none =>
        have he : placeOrderFaulty st user ⟨some pid, q, cid⟩ fail
            = (.httpError 400 "Invalid product or insufficient stock", st) := by
          simp [placeOrderFaulty, hfind]
        rw [he]
        exact hpos
    | some p =>
      cases q with
      | none =>
          have he : placeOrderFaulty st user ⟨some pid, none, cid⟩ fail
              = (.typeError, st) := by
            simp [placeOrderFaulty, hfind]
          rw [he]
          exact hpos
      | some qv =>
        by_cases hlt : p.stock < qv
        · have he : placeOrderFaulty st user ⟨some pid, some qv, cid⟩ fail
              = (.httpError 400 "Invalid product or insufficient stock", st) := by
            simp [placeOrderFaulty, hfind, hlt]
          rw [he]
          exact hpos
        · by_cases h0 : fail 0 = true
          · have he : placeOrderFaulty st user ⟨some pid, some qv, cid⟩ fail
                = (.dbError, st) := by
              simp [placeOrderFaulty, hfind, hlt, h0]
            rw [he]
            exact hpos
          · by_cases h1 : fail 1 = true
            · have he : (placeOrderFaulty st user ⟨some pid, some qv, cid⟩
                  fail).2.products = st.products := by
                simp [placeOrderFaulty, hfind, hlt, h0, h1]
              rw [he]
              exact hpos
            · by_cases h2 : fail 2 = true
              · have he : (placeOrderFaulty st user ⟨some pid, some qv, cid⟩
                    fail).2.products = st.products := by
                  simp [placeOrderFaulty, hfind, hlt, h0, h1, h2]
                rw [he]
                exact hpos
              · have he : (placeOrderFaulty st user ⟨some pid, some qv, cid⟩
                    fail).2.products
                    = st.products.map (fun pr =>
                        if pr.product_id == pid then
                          { pr with stock := pr.stock - qv }
                        else pr) := by
                  simp [placeOrderFaulty, hfind, hlt, h0, h1, h2]
                rw [he]
                intro pr hpr
                rcases List.mem_map.mp hpr with ⟨pr0, hmem, rfl⟩
                by_cases hb : (pr0.product_id == pid) = true
                · rw [if_pos hb]
                  have hpmem : p ∈ st.products := List.mem_of_find?_eq_some hfind
                  have hppid := List.find?_some hfind
                  have hpr0p : pr0 = p := by
                    refine List.inj_on_of_nodup_map hids hmem hpmem ?_
                    rw [eq_of_beq hb, eq_of_beq hppid]
                  have hv : (0 : Int) ≤ pr0.stock - qv := by
                    rw [hpr0p]
                    omega
                  exact hv
                · rw [if_neg hb]
                  exact hpos pr0 hmem

/-- Every request preserves the list of product ids. -/
theorem applyOp_product_ids (st : Store) (op : Op) :
    (applyOp st op).products.map (fun p => p.product_id)
      = st.products.map (fun p => p.product_id) := by
  cases op with
  | placeOrder user body fail =>
      exact placeOrderFaulty_product_ids st user body fail
  | registerUser hash body =>
      rw [show (applyOp st (.registerUser hash body)).products
            = (register_user st hash body).2.products from rfl,
          register_user_products]
  | deleteUser i => rfl
  | loginOp c u p => rfl

/-- Every request keeps all stocks non-negative. -/
theorem applyOp_stock_nonneg (st : Store) (op : Op)
    (hids : (st.products.map (fun p => p.product_id)).Nodup)
    (hpos : ∀ p ∈ st.products, 0 ≤ p.stock) :
    ∀ p ∈ (applyOp st op).products, 0 ≤ p.stock := by
  cases op with
  | placeOrder user body fail =>
      exact placeOrderFaulty_stock_nonneg st user body fail hids hpos
  | registerUser hash body =>
      intro p hp
      rw [show (applyOp st (.registerUser hash body)).products
            = (register_user st hash body).2.products from rfl,
          register_user_products] at hp
      exact hpos p hp
  | deleteUser i => exact hpos
  | loginOp c u p => exact hpos

/-- Claim C4: under sequential execution, starting from a state whose
product ids are key-unique and whose stocks are all non-negative, no
sequence of requests — order placements with any fault pattern,
registrations, deletions, logins — drives any stock negative: the stock
check `stock < quantity` guards the only decrement. -/
theorem stock_nonneg_invariant (ops : List Op) (st : Store)
    (hids : (st.products.map (fun p => p.product_id)).Nodup)
    (hpos : ∀ p ∈ st.products, 0 ≤ p.stock) :
    ∀ p ∈ (runOps st ops).products, 0 ≤ p.stock := by
  induction ops generalizing st with
  | nil => exact hpos
  | cons op ops ih =>
      exact ih (applyOp st op)
        (by rw [applyOp_product_ids]; exact hids)
        (applyOp_stock_nonneg st op hids hpos)

/-- Witness for C4: after a concrete successful order of 2 units from stock
5, the remaining product row has stock 3, which is non-negative. -/
theorem stock_nonneg_invariant_witness :
    0 ≤ (⟨1, "Shirt", 1, 10, 3⟩ : Product).stock :=
  stock_nonneg_invariant
    [Op.placeOrder demoUser ⟨some 1, some 2, none⟩ (fun _ => false)]
    demoStore (by decide) (by decide)
    ⟨1, "Shirt", 1, 10, 3⟩ (by decide)

/-- One row of `GET /statistics/products` (main.py lines 168-178). -/
structure StatsRow where
  name : String
  total_units_sold : Int
  turnover : Int
deriving DecidableEq, Repr

/-- The FROM/JOIN/SELECT-list stage of the statistics query: `order_items oi
JOIN products p ON oi.product_id = p.product_id`, each joined pair projected
to `(p.name, oi.quantity, oi.quantity * p.price)`. -/
def statsJoin (st : Store) : List (String × Int × Int) :=
  (st.order_items.map (fun oi =>
    (st.products.filter (fun p => p.product_id == oi.product_id)).map
      (fun p => (p.name, oi.quantity, oi.quantity * p.price)))).flatten

/-- The aggregate row of one `GROUP BY p.name` group: the sums of
`oi.quantity` and of `oi.quantity * p.price` over the join rows carrying
that name. -/
def mkStatsRow (rows : List (String × Int × Int)) (n : String) : StatsRow :=
  { name := n
    total_units_sold :=
      ((rows.filter (fun r => r.1 == n)).map (fun r => r.2.1)).sum
    turnover :=
      ((rows.filter (fun r => r.1 == n)).map (fun r => r.2.2)).sum }

/-- The `GROUP BY p.name` stage: one aggregate row per distinct name among
the join rows. -/
def statsGroup (rows : List (String × Int × Int)) : List StatsRow :=
  (rows.map (fun r => r.1)).dedup.map (mkStatsRow rows)

/-- The `ORDER BY turnover DESC` comparison. -/
def turnoverGE (a b : StatsRow) : Prop := b.turnover ≤ a.turnover

instance : DecidableRel turnoverGE := fun a b =>
  inferInstanceAs (Decidable (b.turnover ≤ a.turnover))

instance : IsTotal StatsRow turnoverGE :=
  ⟨fun a b => le_total b.turnover a.turnover⟩

instance : IsTrans StatsRow turnoverGE :=
  ⟨fun _ _ _ h1 h2 => le_trans h2 h1⟩

/-- Embedding of `get_product_stats`: join, group by product name, order by
turnover descending. -/
def get_product_stats (st : Store) : List StatsRow :=
  List.insertionSort turnoverGE (statsGroup (statsJoin st))

/-- Store in which two distinct products share the name "Tee" and each has
one order line. -/
def dupNameStore : Store :=
  { customers := [demoUser]
    products := [⟨1, "Tee", 1, 10, 5⟩, ⟨2, "Tee", 1, 2, 5⟩]
    orders := [⟨1, 7⟩, ⟨2, 7⟩]
    order_items := [⟨1, 1, 1⟩, ⟨2, 2, 1⟩]
    next_customer_id := 8
    next_order_id := 3 }

/-- Claim C7 fails on the code: the query groups by `p.name`, not by
product.  With two distinct products both named "Tee" (ids 1 and 2, prices
10 and 2, one unit sold each), the report holds a single merged row (2
units, turnover 12), so no row reports product 1's own totals (1 unit,
turnover 10) — the claimed per-product report does not exist. -/
theorem get_product_stats_per_product_counterexample :
    ¬ (∀ p ∈ dupNameStore.products,
        (∃ oi ∈ dupNameStore.order_items, oi.product_id = p.product_id) →
        ∃ r ∈ get_product_stats dupNameStore, r.name = p.name ∧
          r.total_units_sold
            = ((dupNameStore.order_items.filter
                (fun oi => oi.product_id == p.product_id)).map
                (fun oi => oi.quantity)).sum ∧
          r.turnover
            = ((dupNameStore.order_items.filter
                (fun oi => oi.product_id == p.product_id)).map
                (fun oi => oi.quantity * p.price)).sum) := by
  decide

/-- Claim C7 amended: the report has exactly one row per distinct product
NAME with at least one order line; that row carries the total units and the
total revenue (quantity times current price) summed over all join rows with
that name; the rows are sorted descending by revenue; and with no order
lines the report is the empty sequence, not an error. -/
theorem get_product_stats_spec (st : Store) :
    (st.order_items = [] → get_product_stats st = []) ∧
    List.Sorted turnoverGE (get_product_stats st) ∧
    (∀ r ∈ get_product_stats st,
      r = mkStatsRow (statsJoin st) r.name ∧
      r.name ∈ (statsJoin st).map (fun x => x.1)) ∧
    (∀ n ∈ (statsJoin st).map (fun x => x.1),
      mkStatsRow (statsJoin st) n ∈ get_product_stats st) := by
  have hperm := List.perm_insertionSort turnoverGE (statsGroup (statsJoin st))
  refine ⟨?_, List.sorted_insertionSort turnoverGE _, ?_, ?_⟩
  · intro h
    simp [get_product_stats, statsGroup, statsJoin, h]
  · intro r hr
    have hr2 : r ∈ statsGroup (statsJoin st) := hperm.mem_iff.mp hr
    rcases List.mem_map.mp hr2 with ⟨n, hn, rfl⟩
    exact ⟨rfl, List.mem_dedup.mp hn⟩
  · intro n hn
    exact hperm.mem_iff.mpr
      (List.mem_map.mpr ⟨n, List.mem_dedup.mpr hn, rfl⟩)

/-- Witness for the amended C7 theorem: the demo store has no order lines,
so the report is the (sorted) empty sequence. -/
theorem get_product_stats_spec_witness :
    get_product_stats demoStore = [] ∧
    List.Sorted turnoverGE (get_product_stats demoStore) :=
  ⟨(get_product_stats_spec demoStore).1 rfl,
   (get_product_stats_spec demoStore).2.1⟩

end ClothingStore
